import Mathlib

/-!
Verification of the `votd` CLI (src/main.rs) against its specification.

The program resolves a Bible verse: an explicitly requested passage or the
"verse of the day" (VOTD), with a single-slot on-disk cache for the VOTD.
We shallowly embed the resolver decision logic of `main`, the parsing
pipeline of `fetch_verse`, and a model of the `rmp_serde` MessagePack
serialization of a `Verse`, and prove the specification claims about them.

Modelling conventions:
* machine integers (`i64` timestamps, `i32` chapter/verse numbers) are `Int`
  with explicit bounds checks where the source checks them;
* the network response, filesystem state and clock are inputs of the model
  (`Env`); the observable effects (network calls, cache reads/writes, the
  final slot bytes) are outputs (`Outcome`);
* a Rust `panic!`-style abort (from `assert!`, `expect`, `unwrap`) is the
  explicit outcome `aborted msg`;
* the MessagePack bytes of the external `rmp_serde` crate are modelled at
  the character level (one symbol per `Char`, MessagePack framing headers
  kept faithful: fixarray, fixstr, str8, str16, str32); `rmp_serde`
  `from_slice` decodes one value and ignores trailing bytes, and the model
  does the same.
-/

/-- `struct Verse { title, text }` from src/main.rs. -/
structure Verse where
  title : String
  text : String
deriving DecidableEq, Repr, Inhabited

/-- `struct ApiVerse { bookname, chapter, verse, text }` from src/main.rs:
the wire representation of one fragment of the remote response. -/
structure ApiVerse where
  bookname : String
  chapter : String
  verse : String
  text : String
deriving DecidableEq, Repr, Inhabited

/-- Network-level failure classes distinguished by `unwrap_error`
(src/main.rs lines 102-118): `e.is_timeout()`, `e.is_status()`,
`e.is_connect()`, and any other `reqwest` error. -/
inductive FetchError where
  | Timeout
  | RemoteRejected
  | ConnectionFailed
  | Other
deriving DecidableEq, Repr

/-- Outcome of `fetch_verse`: a parsed verse, a `reqwest` error returned to
the caller, or a process abort from `assert!`/`expect`. -/
inductive FetchOutcome where
  | ok (v : Verse)
  | err (e : FetchError)
  | aborted (msg : String)
deriving DecidableEq, Repr

/-- Overall process result: verse printed and exit 0; `unwrap_error`
diagnostic and exit 1; or a panic-style abort. -/
inductive ProgResult where
  | success (v : Verse)
  | fetchFailure (e : FetchError)
  | aborted (msg : String)
deriving DecidableEq, Repr

/-- Model of Rust `str::parse::<i32>`: optional sign, at least one digit,
all characters decimal digits, value within `i32` bounds. -/
def parseI32 (s : String) : Option Int :=
  let signSplit : Bool × List Char :=
    match s.data with
    | '+' :: rest => (false, rest)
    | '-' :: rest => (true, rest)
    | cs => (false, cs)
  let neg := signSplit.1
  let ds := signSplit.2
  if ds.isEmpty then none
  else if ds.all Char.isDigit then
    let n : Nat := ds.foldl (fun a c => a * 10 + (c.toNat - 48)) 0
    let val : Int := if neg then -(n : Int) else (n : Int)
    if -(2 ^ 31) ≤ val ∧ val < 2 ^ 31 then some val else none
  else none

/-- `fetch_verse` (src/main.rs lines 61-100), with the HTTP/JSON layer
abstracted as the already-parsed response `resp`. Mirrors the source:
`assert!(!verses.is_empty(), "No verses returned")`, the three
`parse::<i32>().expect(...)` calls on the first fragment's chapter and
verse and the last fragment's verse, the title format, and the text fold. -/
def fetch_verse (resp : Except FetchError (List ApiVerse)) : FetchOutcome :=
  match resp with
  | .error e => .err e
  | .ok [] => .aborted "No verses returned"
  | .ok (first :: rest) =>
    match parseI32 first.chapter with
    | none => .aborted "Chapters should be valid integers"
    | some chapter =>
      match parseI32 first.verse with
      | none => .aborted "Verses should be valid integers"
      | some verse_start =>
        match parseI32 ((first :: rest).getLast (List.cons_ne_nil first rest)).verse with
        | none => .aborted "Verses should be valid integers"
        | some verse_end =>
          .ok
            { title :=
                if verse_start = verse_end then
                  first.bookname ++ " " ++ toString chapter ++ ":" ++ toString verse_start
                else
                  first.bookname ++ " " ++ toString chapter ++ ":" ++ toString verse_start
                    ++ "-" ++ toString verse_end
              text := (first :: rest).foldl (fun acc e => acc ++ e.text) "" }

/-- `unwrap_error` (src/main.rs lines 102-118) composed with how `main`
uses a fetch outcome when no cache write follows: `Ok` prints the verse,
`Err` prints a diagnostic and exits 1; an abort stays an abort. -/
def resultOfOutcome : FetchOutcome → ProgResult
  | .ok v => .success v
  | .err e => .fetchFailure e
  | .aborted m => .aborted m

/-- `const CACHE_EXPIRE_TIME: i64 = 21600` (src/main.rs line 55). -/
def CACHE_EXPIRE_TIME : Int := 21600

/-- The freshness test of src/main.rs line 144: signed seconds difference
`now - stamp <= CACHE_EXPIRE_TIME` on `i64` values. -/
def cacheFresh (now stamp : Int) : Bool := decide (now - stamp ≤ CACHE_EXPIRE_TIME)

/- ---------------------------------------------------------------------
MessagePack model of the `rmp_serde` serialization of a `Verse`
(compact representation: a 2-element array of the two strings).
--------------------------------------------------------------------- -/

/-- MessagePack string-length header: fixstr for lengths below 32, str8,
str16, str32 otherwise (faithful for lengths below 2^32, the only lengths
`rmp_serde` can emit). -/
def encLen (n : Nat) : List Nat :=
  if n < 32 then [0xa0 + n]
  else if n < 256 then [0xd9, n]
  else if n < 65536 then [0xda, n / 256, n % 256]
  else [0xdb, n / 16777216, n / 65536 % 256, n / 256 % 256, n % 256]

/-- One MessagePack-framed string: length header then payload symbols. -/
def encodeStr (s : String) : List Nat := encLen s.length ++ s.data.map Char.toNat

/-- The serialized bytes of a `Verse`: fixarray(2) marker `0x92`, then the
two framed strings, as `rmp_serde::encode::write` produces. -/
def encodeVerse (v : Verse) : List Nat := 0x92 :: (encodeStr v.title ++ encodeStr v.text)

/-- Take exactly `n` symbols from the front, returning them and the rest. -/
def readN : Nat → List Nat → Option (List Nat × List Nat)
  | 0, bs => some ([], bs)
  | _ + 1, [] => none
  | n + 1, b :: bs => (readN n bs).map (fun p => (b :: p.1, p.2))

/-- Rebuild a string from payload symbols. -/
def strOfCodes (cs : List Nat) : String := String.mk (cs.map Char.ofNat)

/-- Decode one MessagePack-framed string, returning it and the remaining
symbols. -/
def decodeStr (bs : List Nat) : Option (String × List Nat) :=
  match bs with
  | [] => none
  | b :: rest =>
    if 0xa0 ≤ b ∧ b ≤ 0xbf then
      (readN (b - 0xa0) rest).map (fun p => (strOfCodes p.1, p.2))
    else if b = 0xd9 then
      match rest with
      | l :: r => (readN l r).map (fun p => (strOfCodes p.1, p.2))
      | [] => none
    else if b = 0xda then
      match rest with
      | l1 :: l0 :: r => (readN (l1 * 256 + l0) r).map (fun p => (strOfCodes p.1, p.2))
      | _ => none
    else if b = 0xdb then
      match rest with
      | l3 :: l2 :: l1 :: l0 :: r =>
        (readN (((l3 * 256 + l2) * 256 + l1) * 256 + l0) r).map
          (fun p => (strOfCodes p.1, p.2))
      | _ => none
    else none

/-- Decode the payload after the fixarray(2) marker: two framed strings;
anything after the second string is ignored, as `rmp_serde::from_slice`
ignores trailing bytes. -/
def decodeVersePayload (bs : List Nat) : Option Verse :=
  match decodeStr bs with
  | some (title, rest2) =>
    match decodeStr rest2 with
    | some (text, _) => some { title := title, text := text }
    | none => none
  | none => none

/-- Model of `rmp_serde::from_slice::<Verse>`: fixarray(2) marker `0x92`,
then the two framed strings. -/
def decodeVerse (bs : List Nat) : Option Verse :=
  match bs with
  | b :: rest => if b = 0x92 then decodeVersePayload rest else none
  | [] => none

/-- `rmp_serde::encode::write` to the slot file at position 0 without
truncation (the file is opened without `truncate`, src/main.rs lines
133-139, and rewound before the write): the new bytes overwrite the prefix
and any longer previous content keeps its tail. -/
def writeAt0 (old new : List Nat) : List Nat := new ++ old.drop new.length

/- ---------------------------------------------------------------------
The resolver: `main` (src/main.rs lines 120-196).
--------------------------------------------------------------------- -/

/-- Inputs of one invocation: the CLI flags, the filesystem state of the
cache slot, the clock, the network response, and whether the final cache
write would succeed. -/
structure Env where
  reqVerse : List String
  no_cache : Bool
  refresh_cache : Bool
  cachePath : Bool
  fileExists : Bool
  fileContent : List Nat
  fileMtime : Int
  now : Int
  response : Except FetchError (List ApiVerse)
  writeOk : Bool

/-- Observable effects of one invocation: the process result, the verse
printed to the user (printing happens before the cache write-back), the
network calls with their `passage` query value, the cache slot reads and
attempted writes, and the slot file state afterwards. `ageAtCheck` is the
signed age `now - mtime` computed by the freshness check, when it ran. -/
structure Outcome where
  result : ProgResult
  printedVerse : Option Verse
  networkCalls : List String
  cacheReads : Nat
  cacheWrites : Nat
  fileExistsAfter : Bool
  fileContentAfter : List Nat
  ageAtCheck : Option Int
deriving DecidableEq, Repr

/-- The fetch-and-maybe-write-back tail of `main`: lines 163, 166-167
(fetch via `unwrap_error`), 170-190 (print), 192-195 (write-back guarded
by `write_cache && cache.is_some()`, with `.unwrap()` on the write).
`passage` is the query value of the network call (`"votd"` when the
passage is absent, src/main.rs line 64); `cacheOpen` is the open slot
content when the cache handle is `Some`. -/
def finishFetch (env : Env) (passage : Option String) (writeCache : Bool)
    (cacheOpen : Option (List Nat)) (reads : Nat) (age : Option Int) : Outcome :=
  let query := match passage with | some s => s | none => "votd"
  let existsAfter := cacheOpen.isSome || env.fileExists
  let baseContent := match cacheOpen with | some c => c | none => env.fileContent
  match fetch_verse env.response with
  | .aborted m =>
    { result := .aborted m, printedVerse := none, networkCalls := [query],
      cacheReads := reads, cacheWrites := 0, fileExistsAfter := existsAfter,
      fileContentAfter := baseContent, ageAtCheck := age }
  | .err e =>
    { result := .fetchFailure e, printedVerse := none, networkCalls := [query],
      cacheReads := reads, cacheWrites := 0, fileExistsAfter := existsAfter,
      fileContentAfter := baseContent, ageAtCheck := age }
  | .ok v =>
    if writeCache && cacheOpen.isSome then
      if env.writeOk then
        { result := .success v, printedVerse := some v, networkCalls := [query],
          cacheReads := reads, cacheWrites := 1, fileExistsAfter := existsAfter,
          fileContentAfter := writeAt0 baseContent (encodeVerse v), ageAtCheck := age }
      else
        { result := .aborted "cache write failed", printedVerse := some v,
          networkCalls := [query], cacheReads := reads, cacheWrites := 1,
          fileExistsAfter := existsAfter, fileContentAfter := baseContent,
          ageAtCheck := age }
    else
      { result := .success v, printedVerse := some v, networkCalls := [query],
        cacheReads := reads, cacheWrites := 0, fileExistsAfter := existsAfter,
        fileContentAfter := baseContent, ageAtCheck := age }

/-- `main` (src/main.rs lines 120-196). Line-by-line correspondence:
123-127 build `verse_requested` by joining the positional words; 131-151
open the slot with `create(true)` (a missing slot becomes an empty file
whose mtime is the current time) and compute the freshness flag
`now - stamp <= CACHE_EXPIRE_TIME && !args.refresh_cache`; 153-164 on a
fresh slot read and deserialize, returning the cached verse on success and
falling back to a VOTD fetch with `write_cache = true` on decode failure;
165-168 otherwise fetch `verse_requested` with
`write_cache = verse_requested.is_none() && !args.no_cache`; 192-195
write back when `write_cache && cache.is_some()`. -/
def runMain (env : Env) : Outcome :=
  let verse_requested : Option String :=
    if env.reqVerse.isEmpty then none else some (String.intercalate " " env.reqVerse)
  if verse_requested.isNone && !env.no_cache then
    if env.cachePath then
      let content := if env.fileExists then env.fileContent else []
      let stamp := if env.fileExists then env.fileMtime else env.now
      let age := env.now - stamp
      if cacheFresh env.now stamp && !env.refresh_cache then
        match decodeVerse content with
        | some cached =>
          { result := .success cached, printedVerse := some cached, networkCalls := [],
            cacheReads := 1, cacheWrites := 0, fileExistsAfter := true,
            fileContentAfter := content, ageAtCheck := some age }
        | none => finishFetch env none true (some content) 1 (some age)
      else finishFetch env none true (some content) 0 (some age)
    else finishFetch env none true none 0 none
  else finishFetch env verse_requested (verse_requested.isNone && !env.no_cache) none 0 none

/- ---------------------------------------------------------------------
Concrete environments used to instantiate the theorems below.
--------------------------------------------------------------------- -/

/-- VOTD invocation, caching on, fresh slot holding a well-formed verse. -/
def envC1 : Env :=
  { reqVerse := [], no_cache := false, refresh_cache := false, cachePath := true,
    fileExists := true, fileContent := encodeVerse ⟨"Ps 23:1", "The Lord is my shepherd"⟩,
    fileMtime := 100, now := 2000, response := .ok [], writeOk := true }

/-- Invocation with an explicit passage and a fresh, well-formed slot. -/
def envC2 : Env :=
  { reqVerse := ["John", "3:16"], no_cache := false, refresh_cache := false, cachePath := true,
    fileExists := true, fileContent := [1, 2, 3], fileMtime := 0, now := 50,
    response := .ok [⟨"John", "3", "16", "For God so loved the world"⟩], writeOk := true }

/-- VOTD invocation, caching on, fresh slot whose bytes do not decode. -/
def envC3 : Env :=
  { reqVerse := [], no_cache := false, refresh_cache := false, cachePath := true,
    fileExists := true, fileContent := [7, 7, 7], fileMtime := 100, now := 2000,
    response := .ok [⟨"John", "3", "16", "For God so loved the world"⟩], writeOk := true }

/-- VOTD invocation whose remote response is an empty fragment array. -/
def envC4 : Env :=
  { reqVerse := [], no_cache := false, refresh_cache := false, cachePath := true,
    fileExists := true, fileContent := [], fileMtime := 0, now := 999999,
    response := .ok [], writeOk := true }

/-- VOTD invocation whose two-fragment response has a parseable first
fragment but an unparsable verse field on the last fragment. -/
def envC4b : Env :=
  { reqVerse := [], no_cache := true, refresh_cache := false, cachePath := true,
    fileExists := true, fileContent := [], fileMtime := 0, now := 0,
    response := .ok [⟨"John", "3", "16", "a"⟩, ⟨"John", "3", "seventeen", "b"⟩],
    writeOk := true }

/-- Forced-refresh VOTD invocation whose cache write fails. -/
def envC5x : Env :=
  { reqVerse := [], no_cache := false, refresh_cache := true, cachePath := true,
    fileExists := true, fileContent := [], fileMtime := 0, now := 100,
    response := .ok [⟨"John", "3", "16", "For God so loved the world"⟩], writeOk := false }

/-- Stale-slot VOTD invocation whose cache write fails. -/
def envC5w : Env :=
  { reqVerse := [], no_cache := false, refresh_cache := false, cachePath := true,
    fileExists := true, fileContent := [9], fileMtime := 0, now := 50000,
    response := .ok [⟨"Rom", "8", "28", "And we know"⟩], writeOk := false }

/-- Stale slot whose previous serialized content is longer than the verse
about to be written back. -/
def envC6x : Env :=
  { reqVerse := [], no_cache := false, refresh_cache := false, cachePath := true,
    fileExists := true,
    fileContent := encodeVerse ⟨"John 3:16", "For God so loved the world, that he gave"⟩,
    fileMtime := 0, now := 100000,
    response := .ok [⟨"John", "3", "16", "Short"⟩], writeOk := true }

/-- Stale slot with short previous content, successful write-back. -/
def envC6w : Env :=
  { reqVerse := [], no_cache := false, refresh_cache := false, cachePath := true,
    fileExists := true, fileContent := [3, 4, 5], fileMtime := 0, now := 100000,
    response := .ok [⟨"John", "3", "16", "Short"⟩], writeOk := true }

/-- VOTD invocation whose slot mtime lies in the future. -/
def envC9 : Env :=
  { reqVerse := [], no_cache := false, refresh_cache := false, cachePath := true,
    fileExists := true, fileContent := encodeVerse ⟨"T", "X"⟩, fileMtime := 5000, now := 10,
    response := .ok [], writeOk := true }

/-- VOTD invocation with caching on, no pre-existing slot file, and a
failing network fetch. -/
def envC10 : Env :=
  { reqVerse := [], no_cache := false, refresh_cache := false, cachePath := true,
    fileExists := false, fileContent := [], fileMtime := 0, now := 500,
    response := .error FetchError.ConnectionFailed, writeOk := true }

/- ---------------------------------------------------------------------
Serialization round-trip lemmas.
--------------------------------------------------------------------- -/

theorem readN_append (l rest : List Nat) : readN l.length (l ++ rest) = some (l, rest) := by
  induction l with
  | nil => rfl
  | cons b bs ih => simp [readN, ih]

theorem strOfCodes_map (s : String) : strOfCodes (s.data.map Char.toNat) = s := by
  show String.mk ((s.data.map Char.toNat).map Char.ofNat) = s
  rw [List.map_map]
  have h : List.map (Char.ofNat ∘ Char.toNat) s.data = s.data := by
    simp [Function.comp_def, Char.ofNat_toNat]
  rw [h]

theorem decodeStr_frame (n : Nat) (payload rest : List Nat) (hp : payload.length = n)
    (hn : n < 4294967296) :
    decodeStr (encLen n ++ payload ++ rest) = some (strOfCodes payload, rest) := by
  subst hp
  unfold encLen
  split_ifs with h1 h2 h3
  · have hc1 : (0xa0 : Nat) ≤ 0xa0 + payload.length := by omega
    have hc2 : 0xa0 + payload.length ≤ 0xbf := by omega
    have he : 0xa0 + payload.length - 0xa0 = payload.length := by omega
    simp [decodeStr, hc1, hc2, he, readN_append]
  · simp [decodeStr, readN_append]
  · have he : payload.length / 256 * 256 + payload.length % 256 = payload.length := by omega
    simp [decodeStr, he, readN_append]
  · have he : ((payload.length / 16777216 * 256 + payload.length / 65536 % 256) * 256
        + payload.length / 256 % 256) * 256 + payload.length % 256 = payload.length := by omega
    simp [decodeStr, he, readN_append]

theorem decodeStr_encodeStr (s : String) (hn : s.length < 4294967296) (rest : List Nat) :
    decodeStr (encodeStr s ++ rest) = some (s, rest) := by
  have hlen : (s.data.map Char.toNat).length = s.length := by
    rw [List.length_map]; rfl
  have h := decodeStr_frame s.length (s.data.map Char.toNat) rest hlen hn
  rw [encodeStr, List.append_assoc]
  rw [List.append_assoc] at h
  rw [h, strOfCodes_map]

theorem decodeVerse_cons (b : Nat) (bs : List Nat) :
    decodeVerse (b :: bs) = if b = 0x92 then decodeVersePayload bs else none := rfl

theorem decodeVerse_encodeVerse (v : Verse) (h1 : v.title.length < 4294967296)
    (h2 : v.text.length < 4294967296) (rest : List Nat) :
    decodeVerse (encodeVerse v ++ rest) = some v := by
  have ht := decodeStr_encodeStr v.title h1 (encodeStr v.text ++ rest)
  have hx := decodeStr_encodeStr v.text h2 rest
  show decodeVerse (0x92 :: (encodeStr v.title ++ encodeStr v.text) ++ rest) = some v
  rw [List.cons_append, List.append_assoc, decodeVerse_cons, if_pos rfl]
  simp [decodeVersePayload, ht, hx]

/- ---------------------------------------------------------------------
Helper lemmas about `finishFetch`.
--------------------------------------------------------------------- -/

theorem finishFetch_counts (env : Env) (p : Option String) (w : Bool)
    (c : Option (List Nat)) (r : Nat) (a : Option Int) (hr : r ≤ 1) :
    (finishFetch env p w c r a).networkCalls.length ≤ 1 ∧
      (finishFetch env p w c r a).cacheReads ≤ 1 ∧
      (finishFetch env p w c r a).cacheWrites ≤ 1 := by
  unfold finishFetch
  cases fetch_verse env.response with
  | ok v =>
    simp only []
    split_ifs <;> simp [hr]
  | err e => simp [hr]
  | aborted m => simp [hr]

theorem finishFetch_write (env : Env) (p : Option String) (c : List Nat) (r : Nat)
    (a : Option Int) (v : Verse) (hfetch : fetch_verse env.response = .ok v)
    (hw : env.writeOk = true) :
    finishFetch env p true (some c) r a =
      { result := .success v, printedVerse := some v,
        networkCalls := [match p with | some s => s | none => "votd"],
        cacheReads := r, cacheWrites := 1, fileExistsAfter := true,
        fileContentAfter := writeAt0 c (encodeVerse v), ageAtCheck := a } := by
  simp [finishFetch, hfetch, hw]

theorem finishFetch_writeFail (env : Env) (p : Option String) (c : List Nat) (r : Nat)
    (a : Option Int) (v : Verse) (hfetch : fetch_verse env.response = .ok v)
    (hw : env.writeOk = false) :
    finishFetch env p true (some c) r a =
      { result := .aborted "cache write failed", printedVerse := some v,
        networkCalls := [match p with | some s => s | none => "votd"],
        cacheReads := r, cacheWrites := 1, fileExistsAfter := true,
        fileContentAfter := c, ageAtCheck := a } := by
  simp [finishFetch, hfetch, hw]

/- ---------------------------------------------------------------------
Claim theorems.
--------------------------------------------------------------------- -/

/-- Claim C1: on a VOTD invocation with caching enabled, force-refresh
false, a resolvable cache location, cache age at most 21600 seconds, and a
slot whose bytes deserialize to `v`, the resolver returns exactly the
cached verse, performs no network call and no cache write (the slot bytes
are unchanged). -/
theorem C1_cached_hit (env : Env) (v : Verse)
    (hx : env.reqVerse = []) (hnc : env.no_cache = false) (hrf : env.refresh_cache = false)
    (hp : env.cachePath = true) (hex : env.fileExists = true)
    (hage : env.now - env.fileMtime ≤ 21600)
    (hdec : decodeVerse env.fileContent = some v) :
    (runMain env).result = .success v ∧ (runMain env).networkCalls = [] ∧
      (runMain env).cacheWrites = 0 ∧ (runMain env).fileContentAfter = env.fileContent := by
  have hfresh : cacheFresh env.now env.fileMtime = true := by
    simp only [cacheFresh, CACHE_EXPIRE_TIME, decide_eq_true_eq]
    omega
  simp [runMain, hx, hnc, hrf, hp, hex, hfresh, hdec]

/-- Claim C1 witness: the cached-hit theorem at a concrete environment. -/
theorem C1_witness :
    (runMain envC1).result = ProgResult.success ⟨"Ps 23:1", "The Lord is my shepherd"⟩ ∧
      (runMain envC1).networkCalls = [] ∧ (runMain envC1).cacheWrites = 0 ∧
      (runMain envC1).fileContentAfter = envC1.fileContent :=
  C1_cached_hit envC1 ⟨"Ps 23:1", "The Lord is my shepherd"⟩ rfl rfl rfl rfl rfl
    (by decide) (by decide)

/-- Claim C2: with an explicit passage the cache slot is never read and
never written (bytes and existence unchanged), regardless of the other
flags and of the slot state, and the fetch result is returned as-is. -/
theorem C2_explicit (env : Env) (h : env.reqVerse ≠ []) :
    (runMain env).cacheReads = 0 ∧ (runMain env).cacheWrites = 0 ∧
      (runMain env).fileContentAfter = env.fileContent ∧
      (runMain env).fileExistsAfter = env.fileExists ∧
      (runMain env).networkCalls = [String.intercalate " " env.reqVerse] ∧
      (runMain env).result = resultOfOutcome (fetch_verse env.response) := by
  have hne : env.reqVerse.isEmpty = false := by
    cases hv : env.reqVerse with
    | nil => exact absurd hv h
    | cons a l => rfl
  cases hf : fetch_verse env.response <;>
    simp [runMain, hne, finishFetch, resultOfOutcome, hf]

/-- Claim C2 witness: the explicit-passage theorem at a concrete
environment. -/
theorem C2_witness :
    (runMain envC2).cacheReads = 0 ∧ (runMain envC2).cacheWrites = 0 ∧
      (runMain envC2).fileContentAfter = envC2.fileContent ∧
      (runMain envC2).fileExistsAfter = envC2.fileExists ∧
      (runMain envC2).networkCalls = [String.intercalate " " envC2.reqVerse] ∧
      (runMain envC2).result = resultOfOutcome (fetch_verse envC2.response) :=
  C2_explicit envC2 (by decide)

/-- Claim C3: with caching enabled, force-refresh false and a fresh slot
whose bytes fail to deserialize, the corruption is treated as a cache
miss: the resolver fetches from the network (one call), and on fetch and
write success overwrites the slot so that it deserializes to the fetched
verse, which is returned as the successful result. -/
theorem C3_corrupt_is_miss (env : Env) (v : Verse)
    (hx : env.reqVerse = []) (hnc : env.no_cache = false) (hrf : env.refresh_cache = false)
    (hp : env.cachePath = true) (hex : env.fileExists = true)
    (hage : env.now - env.fileMtime ≤ 21600)
    (hdec : decodeVerse env.fileContent = none)
    (hfetch : fetch_verse env.response = .ok v)
    (hw : env.writeOk = true)
    (h1 : v.title.length < 4294967296) (h2 : v.text.length < 4294967296) :
    (runMain env).result = .success v ∧ (runMain env).networkCalls = ["votd"] ∧
      (runMain env).cacheReads = 1 ∧ (runMain env).cacheWrites = 1 ∧
      decodeVerse (runMain env).fileContentAfter = some v := by
  have hfresh : cacheFresh env.now env.fileMtime = true := by
    simp only [cacheFresh, CACHE_EXPIRE_TIME, decide_eq_true_eq]
    omega
  have hrt := decodeVerse_encodeVerse v h1 h2 (env.fileContent.drop (encodeVerse v).length)
  have hred : runMain env = finishFetch env none true (some env.fileContent) 1
      (some (env.now - env.fileMtime)) := by
    simp [runMain, hx, hnc, hrf, hp, hex, hfresh, hdec]
  rw [hred, finishFetch_write env none env.fileContent 1 _ v hfetch hw]
  simpa [writeAt0] using hrt

/-- Claim C3 witness: the corruption-as-miss theorem at a concrete
environment with an undecodable fresh slot. -/
theorem C3_witness :
    (runMain envC3).result = ProgResult.success ⟨"John 3:16", "For God so loved the world"⟩ ∧
      (runMain envC3).networkCalls = ["votd"] ∧ (runMain envC3).cacheReads = 1 ∧
      (runMain envC3).cacheWrites = 1 ∧
      decodeVerse (runMain envC3).fileContentAfter =
        some ⟨"John 3:16", "For God so loved the world"⟩ :=
  C3_corrupt_is_miss envC3 ⟨"John 3:16", "For God so loved the world"⟩ rfl rfl rfl rfl rfl
    (by decide) (by decide) (by decide) rfl (by decide) (by decide)

/-- Claim C4 counterexample: an empty fragment array makes `fetch_verse`
abort the process via `assert!` with "No verses returned" — not return an
`Empty` error variant — and unparsable chapter/verse fields abort via
`expect` — not return a `MalformedData` variant. No such error variants
exist in the code. -/
theorem C4_counterexample :
    fetch_verse (Except.ok ([] : List ApiVerse)) = .aborted "No verses returned" ∧
      fetch_verse (.ok [⟨"John", "three", "16", "text"⟩]) =
        .aborted "Chapters should be valid integers" ∧
      fetch_verse (.ok [⟨"John", "3", "sixteen", "text"⟩]) =
        .aborted "Verses should be valid integers" := by
  decide

/-- Claim C4 (amended): a response with zero fragments makes `fetch_verse`
abort the process with "No verses returned"; an unparsable chapter or
verse field aborts with the corresponding `expect` message; the process
terminates rather than returning an error variant to the caller. In every
case where the fetch does not produce a verse, no cache write occurs. -/
theorem C4_amended (env : Env) :
    (env.response = .ok [] → fetch_verse env.response = .aborted "No verses returned") ∧
    (∀ f rest, env.response = .ok (f :: rest) → parseI32 f.chapter = none →
      fetch_verse env.response = .aborted "Chapters should be valid integers") ∧
    (∀ f rest ch, env.response = .ok (f :: rest) → parseI32 f.chapter = some ch →
      parseI32 f.verse = none →
      fetch_verse env.response = .aborted "Verses should be valid integers") ∧
    (∀ f rest ch vs, env.response = .ok (f :: rest) → parseI32 f.chapter = some ch →
      parseI32 f.verse = some vs →
      parseI32 ((f :: rest).getLast (List.cons_ne_nil f rest)).verse = none →
      fetch_verse env.response = .aborted "Verses should be valid integers") ∧
    ((∀ v, fetch_verse env.response ≠ .ok v) → (runMain env).cacheWrites = 0) := by
  refine ⟨?_, ?_, ?_, ?_, ?_⟩
  · intro h
    rw [h]
    rfl
  · intro f rest h hch
    rw [h]
    simp [fetch_verse, hch]
  · intro f rest ch h hch hvs
    rw [h]
    simp [fetch_verse, hch, hvs]
  · intro f rest ch vs h hch hvs hlast
    rw [h]
    simp [fetch_verse, hch, hvs, hlast]
  · intro h
    have hz : ∀ p w c r a, (finishFetch env p w c r a).cacheWrites = 0 := by
      intro p w c r a
      unfold finishFetch
      cases hfo : fetch_verse env.response with
      | ok v => exact absurd hfo (h v)
      | err e => rfl
      | aborted m => rfl
    simp only [runMain]
    repeat' split
    all_goals first
      | exact hz _ _ _ _ _
      | rfl

/-- Claim C4 witness: the amended theorem at a concrete environment whose
response is an empty fragment array, and at one whose last fragment alone
has an unparsable verse field. -/
theorem C4_witness :
    fetch_verse envC4.response = .aborted "No verses returned" ∧
      (runMain envC4).cacheWrites = 0 ∧
      fetch_verse envC4b.response = .aborted "Verses should be valid integers" :=
  ⟨(C4_amended envC4).1 rfl,
    (C4_amended envC4).2.2.2.2 (by intro v h; simp [fetch_verse, envC4] at h),
    (C4_amended envC4b).2.2.2.1 ⟨"John", "3", "16", "a"⟩ [⟨"John", "3", "seventeen", "b"⟩]
      3 16 rfl (by decide) (by decide) (by decide)⟩

/-- Claim C5 counterexample: on a write-back path a failing cache write
aborts the process (the `.unwrap()` on `rmp_serde::encode::write`,
src/main.rs line 194): the result is a panic-style abort, not the
successful result the claim requires. The verse had already been printed
before the write. -/
theorem C5_counterexample :
    (runMain envC5x).printedVerse = some ⟨"John 3:16", "For God so loved the world"⟩ ∧
      (runMain envC5x).result = ProgResult.aborted "cache write failed" ∧
      (runMain envC5x).result ≠
        ProgResult.success ⟨"John 3:16", "For God so loved the world"⟩ := by
  decide

/-- Claim C5 (amended): on every write-back path (forced refresh, stale
slot, or corrupt slot) with a successful fetch and a failing cache write,
the fetched verse is printed to the user in full before the failure, but
the process then aborts via the `.unwrap()` panic instead of exiting
successfully; only one write is attempted. -/
theorem C5_amended (env : Env) (v : Verse)
    (hx : env.reqVerse = []) (hnc : env.no_cache = false) (hp : env.cachePath = true)
    (hmiss : env.refresh_cache = true ∨
      cacheFresh env.now (if env.fileExists then env.fileMtime else env.now) = false ∨
      decodeVerse (if env.fileExists then env.fileContent else []) = none)
    (hfetch : fetch_verse env.response = .ok v)
    (hw : env.writeOk = false) :
    (runMain env).printedVerse = some v ∧
      (runMain env).result = .aborted "cache write failed" ∧
      (runMain env).cacheWrites = 1 := by
  have key : ∀ r a, (finishFetch env none true
      (some (if env.fileExists then env.fileContent else [])) r a).printedVerse = some v ∧
      (finishFetch env none true
        (some (if env.fileExists then env.fileContent else [])) r a).result =
        .aborted "cache write failed" ∧
      (finishFetch env none true
        (some (if env.fileExists then env.fileContent else [])) r a).cacheWrites = 1 := by
    intro r a
    rw [finishFetch_writeFail env none _ r a v hfetch hw]
    exact ⟨rfl, rfl, rfl⟩
  rcases hmiss with hr | hcf | hdec
  · have hred : runMain env = finishFetch env none true
        (some (if env.fileExists then env.fileContent else [])) 0
        (some (env.now - (if env.fileExists then env.fileMtime else env.now))) := by
      simp [runMain, hx, hnc, hp, hr]
    rw [hred]
    exact key _ _
  · have hred : runMain env = finishFetch env none true
        (some (if env.fileExists then env.fileContent else [])) 0
        (some (env.now - (if env.fileExists then env.fileMtime else env.now))) := by
      simp [runMain, hx, hnc, hp, hcf]
    rw [hred]
    exact key _ _
  · by_cases hfr : (cacheFresh env.now (if env.fileExists then env.fileMtime else env.now)
        && !env.refresh_cache) = true
    · have hred : runMain env = finishFetch env none true
          (some (if env.fileExists then env.fileContent else [])) 1
          (some (env.now - (if env.fileExists then env.fileMtime else env.now))) := by
        simp [runMain, hx, hnc, hp, hfr, hdec]
      rw [hred]
      exact key _ _
    · have hred : runMain env = finishFetch env none true
          (some (if env.fileExists then env.fileContent else [])) 0
          (some (env.now - (if env.fileExists then env.fileMtime else env.now))) := by
        simp [runMain, hx, hnc, hp, hfr]
      rw [hred]
      exact key _ _

/-- Claim C5 witness: the amended theorem at a concrete stale-slot
environment with a failing write. -/
theorem C5_witness :
    (runMain envC5w).printedVerse = some ⟨"Rom 8:28", "And we know"⟩ ∧
      (runMain envC5w).result = ProgResult.aborted "cache write failed" ∧
      (runMain envC5w).cacheWrites = 1 :=
  C5_amended envC5w ⟨"Rom 8:28", "And we know"⟩ rfl rfl rfl
    (Or.inr (Or.inl (by decide))) (by decide) rfl

/-- Claim C6 counterexample: the slot file is opened without truncation
and the write-back starts at position 0, so after a successful write-back
over longer previous content the slot bytes are NOT exactly the serialized
verse — the tail of the previous content remains. -/
theorem C6_counterexample :
    (runMain envC6x).cacheWrites = 1 ∧
      (runMain envC6x).result = ProgResult.success ⟨"John 3:16", "Short"⟩ ∧
      (runMain envC6x).fileContentAfter ≠ encodeVerse ⟨"John 3:16", "Short"⟩ := by
  decide

/-- Claim C6 (amended): after every successful cache write-back the slot
bytes begin at offset 0 with the serialization of the verse just written,
followed by whatever tail of longer previous content survives (the file
is not truncated); a subsequent read still deserializes to the written
verse because decoding ignores trailing bytes. -/
theorem C6_amended (env : Env) (v : Verse)
    (hx : env.reqVerse = []) (hnc : env.no_cache = false) (hp : env.cachePath = true)
    (hmiss : env.refresh_cache = true ∨
      cacheFresh env.now (if env.fileExists then env.fileMtime else env.now) = false ∨
      decodeVerse (if env.fileExists then env.fileContent else []) = none)
    (hfetch : fetch_verse env.response = .ok v)
    (hw : env.writeOk = true)
    (h1 : v.title.length < 4294967296) (h2 : v.text.length < 4294967296) :
    (runMain env).cacheWrites = 1 ∧
      (runMain env).fileContentAfter = encodeVerse v ++
        (if env.fileExists then env.fileContent else []).drop (encodeVerse v).length ∧
      decodeVerse (runMain env).fileContentAfter = some v := by
  have hrt := decodeVerse_encodeVerse v h1 h2
    ((if env.fileExists then env.fileContent else []).drop (encodeVerse v).length)
  have key : ∀ r a, (finishFetch env none true
      (some (if env.fileExists then env.fileContent else [])) r a).cacheWrites = 1 ∧
      (finishFetch env none true
        (some (if env.fileExists then env.fileContent else [])) r a).fileContentAfter =
        encodeVerse v ++
          (if env.fileExists then env.fileContent else []).drop (encodeVerse v).length ∧
      decodeVerse (finishFetch env none true
        (some (if env.fileExists then env.fileContent else [])) r a).fileContentAfter =
        some v := by
    intro r a
    rw [finishFetch_write env none _ r a v hfetch hw]
    exact ⟨rfl, rfl, hrt⟩
  rcases hmiss with hr | hcf | hdec
  · have hred : runMain env = finishFetch env none true
        (some (if env.fileExists then env.fileContent else [])) 0
        (some (env.now - (if env.fileExists then env.fileMtime else env.now))) := by
      simp [runMain, hx, hnc, hp, hr]
    rw [hred]
    exact key _ _
  · have hred : runMain env = finishFetch env none true
        (some (if env.fileExists then env.fileContent else [])) 0
        (some (env.now - (if env.fileExists then env.fileMtime else env.now))) := by
      simp [runMain, hx, hnc, hp, hcf]
    rw [hred]
    exact key _ _
  · by_cases hfr : (cacheFresh env.now (if env.fileExists then env.fileMtime else env.now)
        && !env.refresh_cache) = true
    · have hred : runMain env = finishFetch env none true
          (some (if env.fileExists then env.fileContent else [])) 1
          (some (env.now - (if env.fileExists then env.fileMtime else env.now))) := by
        simp [runMain, hx, hnc, hp, hfr, hdec]
      rw [hred]
      exact key _ _
    · have hred : runMain env = finishFetch env none true
          (some (if env.fileExists then env.fileContent else [])) 0
          (some (env.now - (if env.fileExists then env.fileMtime else env.now))) := by
        simp [runMain, hx, hnc, hp, hfr]
      rw [hred]
      exact key _ _

/-- Claim C6 witness: the amended theorem at a concrete stale-slot
environment with a successful write-back. -/
theorem C6_witness :
    (runMain envC6w).cacheWrites = 1 ∧
      (runMain envC6w).fileContentAfter = encodeVerse ⟨"John 3:16", "Short"⟩ ++
        (if envC6w.fileExists then envC6w.fileContent else []).drop
          (encodeVerse ⟨"John 3:16", "Short"⟩).length ∧
      decodeVerse (runMain envC6w).fileContentAfter = some ⟨"John 3:16", "Short"⟩ :=
  C6_amended envC6w ⟨"John 3:16", "Short"⟩ rfl rfl rfl
    (Or.inr (Or.inl (by decide))) (by decide) rfl (by decide) (by decide)

/-- Claim C7: a successful fetch over a non-empty fragment sequence with
parseable chapter and verse numbers yields the title
`"{book} {chapter}:{verseStart}"` when the first and last fragments'
verse numbers coincide and `"{book} {chapter}:{verseStart}-{verseEnd}"`
otherwise (book and chapter from the first fragment), and a text equal to
the fragments' text fields concatenated in response order with no added
separator. -/
theorem C7_title_text (first : ApiVerse) (rest : List ApiVerse) (ch vs ve : Int)
    (hch : parseI32 first.chapter = some ch) (hvs : parseI32 first.verse = some vs)
    (hve : parseI32 ((first :: rest).getLast (List.cons_ne_nil first rest)).verse = some ve) :
    fetch_verse (.ok (first :: rest)) =
      .ok { title := if vs = ve then
              first.bookname ++ " " ++ toString ch ++ ":" ++ toString vs
            else
              first.bookname ++ " " ++ toString ch ++ ":" ++ toString vs ++ "-" ++ toString ve,
            text := String.join ((first :: rest).map (fun f => f.text)) } := by
  simp [fetch_verse, hch, hvs, hve, String.join, List.foldl_map]

/-- Claim C7 witness: a two-fragment response produces the ranged title
and the separator-free concatenation of the texts. -/
theorem C7_witness :
    fetch_verse (.ok [⟨"John", "3", "16", "For God so loved the world, "⟩,
        ⟨"John", "3", "17", "For God did not send his Son"⟩]) =
      .ok ⟨"John 3:16-17", "For God so loved the world, For God did not send his Son"⟩ := by
  rw [C7_title_text ⟨"John", "3", "16", "For God so loved the world, "⟩
    [⟨"John", "3", "17", "For God did not send his Son"⟩] 3 16 17
    (by decide) (by decide) (by decide)]
  decide

/-- Claim C8: every invocation performs at most one network call, at most
one cache read and at most one cache write. -/
theorem C8_at_most_one (env : Env) :
    (runMain env).networkCalls.length ≤ 1 ∧ (runMain env).cacheReads ≤ 1 ∧
      (runMain env).cacheWrites ≤ 1 := by
  simp only [runMain]
  repeat' split
  all_goals first
    | exact finishFetch_counts env _ _ _ _ _ (by omega)
    | simp

/-- Claim C9: a slot modification timestamp in the future makes the
signed age `now - stamp` negative, which always passes the freshness test
`now - stamp <= CACHE_EXPIRE_TIME`; with force-refresh false and a
decodable slot the resolver then serves the cached verse with no network
call. -/
theorem C9_future_fresh (env : Env) (v : Verse)
    (hx : env.reqVerse = []) (hnc : env.no_cache = false) (hrf : env.refresh_cache = false)
    (hp : env.cachePath = true) (hex : env.fileExists = true)
    (hfut : env.now < env.fileMtime)
    (hdec : decodeVerse env.fileContent = some v) :
    cacheFresh env.now env.fileMtime = true ∧
      (runMain env).result = .success v ∧ (runMain env).networkCalls = [] := by
  have hfresh : cacheFresh env.now env.fileMtime = true := by
    simp only [cacheFresh, CACHE_EXPIRE_TIME, decide_eq_true_eq]
    omega
  refine ⟨hfresh, ?_⟩
  simp [runMain, hx, hnc, hrf, hp, hex, hfresh, hdec]

/-- Claim C9 witness: the future-mtime theorem at a concrete environment
whose slot mtime (5000) is ahead of the clock (10). -/
theorem C9_witness :
    cacheFresh envC9.now envC9.fileMtime = true ∧
      (runMain envC9).result = ProgResult.success ⟨"T", "X"⟩ ∧
      (runMain envC9).networkCalls = [] :=
  C9_future_fresh envC9 ⟨"T", "X"⟩ rfl rfl rfl rfl rfl (by decide) (by decide)

/-- Claim C10: on a VOTD invocation with caching enabled and a resolvable
cache location, a previously missing slot file exists after the freshness
check — the open uses `create(true)` — its age reads as zero, and if the
fetch then fails so that nothing is written, the slot remains an empty
file. -/
theorem C10_created (env : Env)
    (hx : env.reqVerse = []) (hnc : env.no_cache = false) (hp : env.cachePath = true)
    (hne : env.fileExists = false) :
    (runMain env).fileExistsAfter = true ∧ (runMain env).ageAtCheck = some 0 ∧
      (∀ e : FetchError, env.response = Except.error e →
        (runMain env).fileContentAfter = []) := by
  have hfresh : cacheFresh env.now env.now = true := by
    simp [cacheFresh, CACHE_EXPIRE_TIME]
  have hred : ∃ r, runMain env = finishFetch env none true (some []) r (some 0) := by
    cases hr : env.refresh_cache
    · exact ⟨1, by simp [runMain, hx, hnc, hp, hne, hr, hfresh, decodeVerse]⟩
    · exact ⟨0, by simp [runMain, hx, hnc, hp, hne, hr, hfresh]⟩
  obtain ⟨r, hrw⟩ := hred
  refine ⟨?_, ?_, ?_⟩
  · rw [hrw]
    unfold finishFetch
    cases hf : fetch_verse env.response with
    | ok v =>
      simp only []
      split_ifs <;> rfl
    | err e => rfl
    | aborted m => rfl
  · rw [hrw]
    unfold finishFetch
    cases hf : fetch_verse env.response with
    | ok v =>
      simp only []
      split_ifs <;> rfl
    | err e => rfl
    | aborted m => rfl
  · intro e he
    have hfe : fetch_verse env.response = .err e := by
      rw [he]
      rfl
    rw [hrw]
    simp [finishFetch, hfe]

/-- Claim C10 witness: the slot-creation theorem at a concrete environment
with no pre-existing slot and a failing fetch. -/
theorem C10_witness :
    (runMain envC10).fileExistsAfter = true ∧ (runMain envC10).ageAtCheck = some 0 ∧
      (runMain envC10).fileContentAfter = [] := by
  have h := C10_created envC10 rfl rfl rfl rfl
  exact ⟨h.1, h.2.1, h.2.2 FetchError.ConnectionFailed rfl⟩
